import Mathlib

/-!
Shallow embedding of the mini-pms-backend project-management service
(`src/projects/models.py` and `src/projects/schema.py`).

Entities are records, the database is explicit lists of rows, resolvers and
mutations are pure functions from a database (plus inputs) to results and a
new database.  Django/GraphQL library behaviours that are not part of the
repository (the email-format validator `validate_email` and the `slugify`
utility) are abstracted as function parameters, so every theorem holds for
any implementation of them.  Python `round(x, 1)` is modelled as exact
round-half-to-even to one decimal on rationals.
-/

namespace MiniPMS

/-- models.py STATUS_CHOICES: (value, display) pairs for project status. -/
def STATUS_CHOICES : List (String × String) :=
  [("ACTIVE", "Active"), ("COMPLETED", "Completed"), ("ON_HOLD", "On Hold")]

/-- models.py TASK_STATUS_CHOICES: (value, display) pairs for task status. -/
def TASK_STATUS_CHOICES : List (String × String) :=
  [("TODO", "To Do"), ("IN_PROGRESS", "In Progress"), ("DONE", "Done")]

/-- models.py Organization row (timestamps omitted: no claim mentions them). -/
structure Organization where
  id : Nat
  name : String
  slug : String
  contact_email : String
  deriving Repr, DecidableEq

/-- models.py Project row.  `due_date` is a date modelled as an ordinal day
number; `none` is Django NULL. -/
structure Project where
  id : Nat
  organization_id : Nat
  name : String
  description : String
  status : String
  due_date : Option Int
  deriving Repr, DecidableEq

/-- models.py Task row.  `due_date` is a datetime modelled as a timestamp. -/
structure Task where
  id : Nat
  project_id : Nat
  title : String
  description : String
  status : String
  assignee_email : String
  due_date : Option Int
  deriving Repr, DecidableEq

/-- models.py TaskComment row. -/
structure TaskComment where
  id : Nat
  task_id : Nat
  content : String
  author_email : String
  deriving Repr, DecidableEq

/-- The relational store: one list of rows per table. -/
structure DB where
  orgs : List Organization
  projects : List Project
  tasks : List Task
  comments : List TaskComment
  deriving Repr, DecidableEq

/-- Round-half-to-even of a rational to the nearest integer
(the idealisation of Python's round). -/
def roundHalfEven (q : ℚ) : ℤ :=
  let f : ℤ := ⌊q⌋
  let r : ℚ := q - (f : ℚ)
  if r < 1/2 then f
  else if 1/2 < r then f + 1
  else if f % 2 = 0 then f else f + 1

/-- Python round(q, 1): round-half-to-even to one decimal place. -/
def pyRound1 (q : ℚ) : ℚ := ((roundHalfEven (q * 10) : ℤ) : ℚ) / 10

/-- models.py Project.task_count: `self.tasks.count()`. -/
def Project.task_count (db : DB) (p : Project) : Nat :=
  (db.tasks.filter (fun t => t.project_id == p.id)).length

/-- models.py Project.completed_tasks_count:
`self.tasks.filter(status='DONE').count()`. -/
def Project.completed_tasks_count (db : DB) (p : Project) : Nat :=
  (db.tasks.filter (fun t => t.project_id == p.id && t.status == "DONE")).length

/-- models.py Project.completion_percentage: 0 when there are no tasks, else
`round((completed_tasks_count / task_count) * 100, 1)`. -/
def Project.completion_percentage (db : DB) (p : Project) : ℚ :=
  let total_tasks := p.task_count db
  if total_tasks = 0 then 0
  else pyRound1 (((p.completed_tasks_count db : ℚ) / (total_tasks : ℚ)) * 100)

/-- models.py Project.is_overdue:
`self.due_date < timezone.now().date() and self.status != 'COMPLETED'` when a
due date is set, else False.  `today` is the current date. -/
def Project.is_overdue (today : Int) (p : Project) : Bool :=
  match p.due_date with
  | some d => decide (d < today) && !(p.status == "COMPLETED")
  | none => false

/-- models.py Task.is_overdue:
`self.due_date < timezone.now() and self.status != 'DONE'` when a due date is
set, else False. -/
def Task.is_overdue (instant : Int) (t : Task) : Bool :=
  match t.due_date with
  | some d => decide (d < instant) && !(t.status == "DONE")
  | none => false

/-- schema.py ProjectType.resolve_completion_percentage: returns the model
property `self.completion_percentage`. -/
def ProjectType.resolve_completion_percentage (db : DB) (p : Project) : ℚ :=
  p.completion_percentage db

/-- schema.py Query.resolve_organization: get by slug, None when missing. -/
def resolve_organization (db : DB) (slug : String) : Option Organization :=
  db.orgs.find? (fun o => o.slug == slug)

/-- schema.py Query.resolve_project: get by id, None when missing. -/
def resolve_project (db : DB) (id : Nat) : Option Project :=
  db.projects.find? (fun p => p.id == id)

/-- schema.py Query.resolve_task: get by id, None when missing. -/
def resolve_task (db : DB) (id : Nat) : Option Task :=
  db.tasks.find? (fun t => t.id == id)

/-- schema.py ProjectStatisticsType. -/
structure ProjectStatistics where
  total_projects : Nat
  active_projects : Nat
  completed_projects : Nat
  on_hold_projects : Nat
  total_tasks : Nat
  completed_tasks : Nat
  completion_rate : ℚ
  deriving Repr, DecidableEq

/-- schema.py Query.resolve_project_statistics: raises "Organization not
found" for an unknown slug, else aggregates project counts by status, task
counts, and the rounded completion rate (0 when there are no tasks). -/
def resolve_project_statistics (db : DB) (organization_slug : String) :
    Except String ProjectStatistics :=
  match db.orgs.find? (fun o => o.slug == organization_slug) with
  | none => Except.error "Organization not found"
  | some org =>
    let projects := db.projects.filter (fun p => p.organization_id == org.id)
    let tasks := db.tasks.filter (fun t =>
      db.projects.any (fun p => p.id == t.project_id && p.organization_id == org.id))
    let total_tasks := tasks.length
    let completed_tasks := (tasks.filter (fun t => t.status == "DONE")).length
    let completion_rate : ℚ :=
      if 0 < total_tasks then pyRound1 (((completed_tasks : ℚ) / (total_tasks : ℚ)) * 100)
      else 0
    Except.ok
      { total_projects := projects.length
        active_projects := (projects.filter (fun p => p.status == "ACTIVE")).length
        completed_projects := (projects.filter (fun p => p.status == "COMPLETED")).length
        on_hold_projects := (projects.filter (fun p => p.status == "ON_HOLD")).length
        total_tasks := total_tasks
        completed_tasks := completed_tasks
        completion_rate := completion_rate }

/-- Python str.strip(): drop leading and trailing whitespace. -/
def pyStrip (s : String) : String :=
  String.mk (((s.data.dropWhile Char.isWhitespace).reverse.dropWhile Char.isWhitespace).reverse)

/-- The uniform mutation payload: `{entity-or-null, success, errors}`. -/
structure MutationResult (α : Type) where
  entity : Option α
  success : Bool
  errors : List String
  deriving Repr, DecidableEq

/-- Python truthiness of an optional string argument: None and "" are falsy. -/
def truthy : Option String → Bool
  | none => false
  | some s => !(s == "")

/-- Python `v or dflt` on an optional string: falsy (None or "") gives the
default. -/
def pyOr (v : Option String) (dflt : String) : String :=
  match v with
  | some s => if s == "" then dflt else s
  | none => dflt

/-- schema.py status validation (CreateProject/CreateTask/UpdateProject/
UpdateTask): `if status and status not in [choice[0] for choice in CHOICES]`
appends "Invalid status choice". -/
def statusChoiceErrors (choices : List (String × String)) (status : Option String) :
    List String :=
  match status with
  | some s =>
    if !(s == "") && !((choices.map Prod.fst).contains s) then ["Invalid status choice"]
    else []
  | none => []

/-- schema.py assignee-email validation (CreateTask/UpdateTask):
`if input.assignee_email: validate_email(...)` — only truthy values are
validated. -/
def assigneeEmailErrors (validEmail : String → Bool) (assignee_email : Option String) :
    List String :=
  match assignee_email with
  | some e => if !(e == "") && !(validEmail e) then ["Invalid assignee email format"] else []
  | none => []

/-- schema.py CreateOrganization.mutate validation: email format, then
duplicate slug (slug = slugify(name.lower())). -/
def createOrganizationErrors (validEmail : String → Bool) (slugify : String → String)
    (db : DB) (name contact_email : String) : List String :=
  (if validEmail contact_email then [] else ["Invalid email format"]) ++
    (if db.orgs.any (fun o => o.slug == slugify name.toLower) then
      ["Organization with this slug already exists"]
    else [])

/-- schema.py CreateOrganization.mutate. -/
def createOrganization (validEmail : String → Bool) (slugify : String → String)
    (db : DB) (name contact_email : String) (newId : Nat) :
    MutationResult Organization × DB :=
  let errors := createOrganizationErrors validEmail slugify db name contact_email
  if errors = [] then
    let org : Organization := ⟨newId, name, slugify name.toLower, contact_email⟩
    (⟨some org, true, []⟩, { db with orgs := db.orgs ++ [org] })
  else (⟨none, false, errors⟩, db)

/-- schema.py CreateProject.mutate: parent organization lookup short-circuits;
then status validation; creation uses `input.description or ""` and
`input.status or "ACTIVE"`. -/
def createProject (db : DB) (organization_id : Nat) (name : String)
    (description status : Option String) (due_date : Option Int) (newId : Nat) :
    MutationResult Project × DB :=
  match db.orgs.find? (fun o => o.id == organization_id) with
  | none => (⟨none, false, ["Organization not found"]⟩, db)
  | some org =>
    let errors := statusChoiceErrors STATUS_CHOICES status
    if errors = [] then
      let project : Project :=
        ⟨newId, org.id, name, pyOr description "", pyOr status "ACTIVE", due_date⟩
      (⟨some project, true, []⟩, { db with projects := db.projects ++ [project] })
    else (⟨none, false, errors⟩, db)

/-- schema.py CreateTask.mutate validation after the parent lookup: status,
then assignee email. -/
def createTaskErrors (validEmail : String → Bool) (status assignee_email : Option String) :
    List String :=
  statusChoiceErrors TASK_STATUS_CHOICES status ++ assigneeEmailErrors validEmail assignee_email

/-- schema.py CreateTask.mutate: parent project lookup short-circuits; then
status and email validation; creation uses the `or`-defaults TODO and "". -/
def createTask (validEmail : String → Bool) (db : DB) (project_id : Nat) (title : String)
    (description status assignee_email : Option String) (due_date : Option Int)
    (newId : Nat) : MutationResult Task × DB :=
  match db.projects.find? (fun p => p.id == project_id) with
  | none => (⟨none, false, ["Project not found"]⟩, db)
  | some project =>
    let errors := createTaskErrors validEmail status assignee_email
    if errors = [] then
      let task : Task :=
        ⟨newId, project.id, title, pyOr description "", pyOr status "TODO",
          pyOr assignee_email "", due_date⟩
      (⟨some task, true, []⟩, { db with tasks := db.tasks ++ [task] })
    else (⟨none, false, errors⟩, db)

/-- schema.py CreateTaskComment.mutate validation after the parent lookup:
author email format, then non-blank content (`if not content.strip()`). -/
def createTaskCommentErrors (validEmail : String → Bool) (content author_email : String) :
    List String :=
  (if validEmail author_email then [] else ["Invalid author email format"]) ++
    (if pyStrip content == "" then ["Comment content cannot be empty"] else [])

/-- schema.py CreateTaskComment.mutate: parent task lookup short-circuits;
the stored content is `content.strip()`. -/
def createTaskComment (validEmail : String → Bool) (db : DB) (task_id : Nat)
    (content author_email : String) (newId : Nat) :
    MutationResult TaskComment × DB :=
  match db.tasks.find? (fun t => t.id == task_id) with
  | none => (⟨none, false, ["Task not found"]⟩, db)
  | some task =>
    let errors := createTaskCommentErrors validEmail content author_email
    if errors = [] then
      let comment : TaskComment := ⟨newId, task.id, pyStrip content, author_email⟩
      (⟨some comment, true, []⟩, { db with comments := db.comments ++ [comment] })
    else (⟨none, false, errors⟩, db)

/-- schema.py UpdateProject.mutate assignment block: each field is assigned
only when the argument `is not None`. -/
def applyProjectUpdate (project : Project) (name description status : Option String)
    (due_date : Option Int) : Project :=
  { project with
    name := name.getD project.name
    description := description.getD project.description
    status := status.getD project.status
    due_date := match due_date with | some d => some d | none => project.due_date }

/-- schema.py UpdateProject.mutate: parent lookup short-circuits; status
validation; each field assigned only when `is not None`; the saved row
replaces the old one. -/
def updateProject (db : DB) (project_id : Nat) (name description status : Option String)
    (due_date : Option Int) : MutationResult Project × DB :=
  match db.projects.find? (fun p => p.id == project_id) with
  | none => (⟨none, false, ["Project not found"]⟩, db)
  | some project =>
    let errors := statusChoiceErrors STATUS_CHOICES status
    if errors = [] then
      let saved := applyProjectUpdate project name description status due_date
      (⟨some saved, true, []⟩,
        { db with projects := db.projects.map (fun p => if p.id == project_id then saved else p) })
    else (⟨none, false, errors⟩, db)

/-- schema.py UpdateTask.mutate assignment block: each field is assigned only
when the argument `is not None`. -/
def applyTaskUpdate (task : Task) (title description status assignee_email : Option String)
    (due_date : Option Int) : Task :=
  { task with
    title := title.getD task.title
    description := description.getD task.description
    status := status.getD task.status
    assignee_email := assignee_email.getD task.assignee_email
    due_date := match due_date with | some d => some d | none => task.due_date }

/-- schema.py UpdateTask.mutate: parent lookup short-circuits; status then
email validation (truthy-guarded); each field assigned only when
`is not None`; the saved row replaces the old one. -/
def updateTask (validEmail : String → Bool) (db : DB) (task_id : Nat)
    (title description status assignee_email : Option String) (due_date : Option Int) :
    MutationResult Task × DB :=
  match db.tasks.find? (fun t => t.id == task_id) with
  | none => (⟨none, false, ["Task not found"]⟩, db)
  | some task =>
    let errors :=
      statusChoiceErrors TASK_STATUS_CHOICES status ++
        assigneeEmailErrors validEmail assignee_email
    if errors = [] then
      let saved := applyTaskUpdate task title description status assignee_email due_date
      (⟨some saved, true, []⟩,
        { db with tasks := db.tasks.map (fun t => if t.id == task_id then saved else t) })
    else (⟨none, false, errors⟩, db)

/-- schema.py DeleteProject.mutate: not-found yields the error; delete
cascades to the project's tasks and their comments. -/
def deleteProject (db : DB) (project_id : Nat) : MutationResult Unit × DB :=
  match db.projects.find? (fun p => p.id == project_id) with
  | none => (⟨none, false, ["Project not found"]⟩, db)
  | some _ =>
    let removedTaskIds := (db.tasks.filter (fun t => t.project_id == project_id)).map Task.id
    (⟨none, true, []⟩,
      { db with
        projects := db.projects.filter (fun p => !(p.id == project_id))
        tasks := db.tasks.filter (fun t => !(t.project_id == project_id))
        comments := db.comments.filter (fun c => !(removedTaskIds.contains c.task_id)) })

/-- schema.py DeleteTask.mutate: not-found yields the error; delete cascades
to the task's comments. -/
def deleteTask (db : DB) (task_id : Nat) : MutationResult Unit × DB :=
  match db.tasks.find? (fun t => t.id == task_id) with
  | none => (⟨none, false, ["Task not found"]⟩, db)
  | some _ =>
    (⟨none, true, []⟩,
      { db with
        tasks := db.tasks.filter (fun t => !(t.id == task_id))
        comments := db.comments.filter (fun c => !(c.task_id == task_id)) })

/-- schema.py DeleteTaskComment.mutate. -/
def deleteTaskComment (db : DB) (comment_id : Nat) : MutationResult Unit × DB :=
  match db.comments.find? (fun c => c.id == comment_id) with
  | none => (⟨none, false, ["Comment not found"]⟩, db)
  | some _ =>
    (⟨none, true, []⟩,
      { db with comments := db.comments.filter (fun c => !(c.id == comment_id)) })

/-- The validation errors a CreateProject call reports: the parent-lookup
failure alone, or the accumulated field validations. -/
def createProjectExpectedErrors (db : DB) (organization_id : Nat)
    (status : Option String) : List String :=
  match db.orgs.find? (fun o => o.id == organization_id) with
  | none => ["Organization not found"]
  | some _ => statusChoiceErrors STATUS_CHOICES status

/-- The validation errors a CreateTask call reports. -/
def createTaskExpectedErrors (validEmail : String → Bool) (db : DB) (project_id : Nat)
    (status assignee_email : Option String) : List String :=
  match db.projects.find? (fun p => p.id == project_id) with
  | none => ["Project not found"]
  | some _ => createTaskErrors validEmail status assignee_email

/-- The validation errors a CreateTaskComment call reports. -/
def createTaskCommentExpectedErrors (validEmail : String → Bool) (db : DB) (task_id : Nat)
    (content author_email : String) : List String :=
  match db.tasks.find? (fun t => t.id == task_id) with
  | none => ["Task not found"]
  | some _ => createTaskCommentErrors validEmail content author_email

/-- The validation errors an UpdateProject call reports. -/
def updateProjectExpectedErrors (db : DB) (project_id : Nat)
    (status : Option String) : List String :=
  match db.projects.find? (fun p => p.id == project_id) with
  | none => ["Project not found"]
  | some _ => statusChoiceErrors STATUS_CHOICES status

/-- The validation errors an UpdateTask call reports. -/
def updateTaskExpectedErrors (validEmail : String → Bool) (db : DB) (task_id : Nat)
    (status assignee_email : Option String) : List String :=
  match db.tasks.find? (fun t => t.id == task_id) with
  | none => ["Task not found"]
  | some _ =>
    statusChoiceErrors TASK_STATUS_CHOICES status ++
      assigneeEmailErrors validEmail assignee_email

/-- The organization of the spec's worked statistics example. -/
def sampleOrg : Organization := ⟨1, "Acme Corp", "acme-corp", "info@acme.com"⟩

/-- Three projects for the example: two ACTIVE, one COMPLETED. -/
def acmeProjects : List Project :=
  [⟨1, 1, "Website", "", "ACTIVE", none⟩,
   ⟨2, 1, "App", "", "ACTIVE", none⟩,
   ⟨3, 1, "Launch", "", "COMPLETED", none⟩]

/-- Ten tasks over those projects, six of them DONE. -/
def acmeTasks : List Task :=
  [⟨1, 1, "Design homepage", "", "TODO", "", none⟩,
   ⟨2, 1, "Build homepage", "", "DONE", "", none⟩,
   ⟨3, 1, "Deploy site", "", "DONE", "", none⟩,
   ⟨4, 2, "Login screen", "", "DONE", "", none⟩,
   ⟨5, 2, "Signup screen", "", "DONE", "", none⟩,
   ⟨6, 2, "Push alerts", "", "IN_PROGRESS", "", none⟩,
   ⟨7, 2, "App store page", "", "TODO", "", none⟩,
   ⟨8, 3, "Press kit", "", "DONE", "", none⟩,
   ⟨9, 3, "Launch email", "", "DONE", "", none⟩,
   ⟨10, 3, "Retrospective", "", "TODO", "", none⟩]

/-- A concrete database realising the spec's statistics example. -/
def acmeDB : DB := ⟨[sampleOrg], acmeProjects, acmeTasks, []⟩

/-- Replacing the first element satisfying `p` by one still satisfying `p`
(and leaving everything else alone) is found by the same search. -/
theorem find?_map_replace {α : Type} (p : α → Bool) (f : α → α) (l : List α) (t : α)
    (h : l.find? p = some t) (hf : ∀ a, p a = false → f a = a) (hpt : p (f t) = true) :
    (l.map f).find? p = some (f t) := by
  induction l with
  | nil => simp at h
  | cons a l ih =>
    cases ha : p a with
    | false =>
      rw [List.find?_cons_of_neg _ (by simp [ha])] at h
      rw [List.map_cons, hf a ha, List.find?_cons_of_neg _ (by simp [ha])]
      exact ih h
    | true =>
      rw [List.find?_cons_of_pos _ ha] at h
      cases h
      rw [List.map_cons, List.find?_cons_of_pos _ hpt]

/-- C1: for every project, the derived completion_percentage equals
round(completed_tasks_count / task_count * 100, 1) when the project has at
least one task, and 0 when it has none. -/
theorem c1_completion_percentage (db : DB) (p : Project) :
    ProjectType.resolve_completion_percentage db p =
      (if db.tasks.countP (fun t => t.project_id == p.id) = 0 then 0
       else pyRound1
         (((db.tasks.countP (fun t => t.project_id == p.id && t.status == "DONE") : ℚ) /
           (db.tasks.countP (fun t => t.project_id == p.id) : ℚ)) * 100)) := by
  simp [ProjectType.resolve_completion_percentage, Project.completion_percentage,
    Project.task_count, Project.completed_tasks_count, List.countP_eq_length_filter]

/-- C5: a project is overdue exactly when it has a due date in the past and
its status is not COMPLETED; a task is overdue exactly when it has a due date
in the past and its status is not DONE; an absent due date is never overdue. -/
theorem c5_is_overdue (today instant : Int) (p : Project) (t : Task) :
    (p.is_overdue today = true ↔
      ((∃ d, p.due_date = some d ∧ d < today) ∧ p.status ≠ "COMPLETED")) ∧
    (t.is_overdue instant = true ↔
      ((∃ d, t.due_date = some d ∧ d < instant) ∧ t.status ≠ "DONE")) := by
  constructor
  · cases hd : p.due_date with
    | none => simp [Project.is_overdue, hd]
    | some d => simp [Project.is_overdue, hd, and_comm]
  · cases hd : t.due_date with
    | none => simp [Task.is_overdue, hd]
    | some d => simp [Task.is_overdue, hd, and_comm]

/-- C6: an unknown organization slug makes the direct lookup return null but
makes project_statistics raise "Organization not found"; unknown project and
task ids make their direct lookups return null. -/
theorem c6_not_found_behaviour (db : DB) (slug : String) (pid tid : Nat)
    (ho : db.orgs.find? (fun o => o.slug == slug) = none)
    (hp : db.projects.find? (fun p => p.id == pid) = none)
    (ht : db.tasks.find? (fun t => t.id == tid) = none) :
    resolve_organization db slug = none ∧
    resolve_project_statistics db slug = Except.error "Organization not found" ∧
    resolve_project db pid = none ∧
    resolve_task db tid = none := by
  refine ⟨?_, ?_, ?_, ?_⟩
  · simp [resolve_organization, ho]
  · simp [resolve_project_statistics, ho]
  · simp [resolve_project, hp]
  · simp [resolve_task, ht]

/-- C6 witness: on the concrete database, the slug "globex" and ids 99 are
unknown, so the lookups return null and the statistics query errors. -/
theorem c6_witness :
    acmeDB.orgs.find? (fun o => o.slug == "globex") = none ∧
    acmeDB.projects.find? (fun p => p.id == 99) = none ∧
    acmeDB.tasks.find? (fun t => t.id == 99) = none ∧
    (resolve_organization acmeDB "globex" = none ∧
     resolve_project_statistics acmeDB "globex" = Except.error "Organization not found" ∧
     resolve_project acmeDB 99 = none ∧
     resolve_task acmeDB 99 = none) :=
  ⟨by decide, by decide, by decide,
    c6_not_found_behaviour acmeDB "globex" 99 99 (by decide) (by decide) (by decide)⟩

/-- C2: for every organization slug that resolves, project_statistics returns
the organization's project counts in total and per status, the total and DONE
counts of tasks belonging to its projects, and the completion rate
round(completed / total * 100, 1), 0 when there are no tasks. -/
theorem c2_project_statistics (db : DB) (slug : String) (org : Organization)
    (h : db.orgs.find? (fun o => o.slug == slug) = some org) :
    resolve_project_statistics db slug =
      Except.ok
        { total_projects := db.projects.countP (fun p => p.organization_id == org.id)
          active_projects :=
            db.projects.countP (fun p => p.status == "ACTIVE" && p.organization_id == org.id)
          completed_projects :=
            db.projects.countP (fun p => p.status == "COMPLETED" && p.organization_id == org.id)
          on_hold_projects :=
            db.projects.countP (fun p => p.status == "ON_HOLD" && p.organization_id == org.id)
          total_tasks :=
            db.tasks.countP (fun t =>
              db.projects.any (fun p => p.id == t.project_id && p.organization_id == org.id))
          completed_tasks :=
            db.tasks.countP (fun t => t.status == "DONE" &&
              db.projects.any (fun p => p.id == t.project_id && p.organization_id == org.id))
          completion_rate :=
            if 0 < db.tasks.countP (fun t =>
                db.projects.any (fun p => p.id == t.project_id && p.organization_id == org.id)) then
              pyRound1
                (((db.tasks.countP (fun t => t.status == "DONE" &&
                    db.projects.any (fun p => p.id == t.project_id && p.organization_id == org.id)) : ℚ) /
                  (db.tasks.countP (fun t =>
                    db.projects.any (fun p => p.id == t.project_id && p.organization_id == org.id)) : ℚ)) * 100)
            else 0 } := by
  simp [resolve_project_statistics, h, List.countP_eq_length_filter, List.filter_filter]

/-- C2 witness: the spec's example — 3 projects (2 ACTIVE, 1 COMPLETED) and
10 tasks (6 DONE) under slug "acme-corp" yield exactly
{3, 2, 1, 0, 10, 6, 60.0}. -/
theorem c2_witness :
    acmeDB.orgs.find? (fun o => o.slug == "acme-corp") = some sampleOrg ∧
    resolve_project_statistics acmeDB "acme-corp" =
      Except.ok ⟨3, 2, 1, 0, 10, 6, 60⟩ := by
  refine ⟨by decide, ?_⟩
  rw [c2_project_statistics acmeDB "acme-corp" sampleOrg (by decide)]
  refine congrArg Except.ok ?_
  have h10 : acmeDB.tasks.countP (fun t =>
      acmeDB.projects.any (fun p => p.id == t.project_id && p.organization_id == sampleOrg.id)) = 10 := by
    decide
  have h6 : acmeDB.tasks.countP (fun t => t.status == "DONE" &&
      acmeDB.projects.any (fun p => p.id == t.project_id && p.organization_id == sampleOrg.id)) = 6 := by
    decide
  simp only [ProjectStatistics.mk.injEq, h10, h6]
  refine ⟨by decide, by decide, by decide, by decide, trivial, trivial, ?_⟩
  norm_num [pyRound1, roundHalfEven]

/-- C3: for every create, update or delete mutation, any input on which a
validation (or required lookup) fails produces no database write, success =
false, and exactly the accumulated validation error messages. -/
theorem c3_validation_precedes_persistence :
    (∀ ve sf (db : DB) name email newId,
      createOrganizationErrors ve sf db name email ≠ [] →
        createOrganization ve sf db name email newId =
          (⟨none, false, createOrganizationErrors ve sf db name email⟩, db)) ∧
    (∀ (db : DB) oid name d s dd newId,
      createProjectExpectedErrors db oid s ≠ [] →
        createProject db oid name d s dd newId =
          (⟨none, false, createProjectExpectedErrors db oid s⟩, db)) ∧
    (∀ ve (db : DB) pid title d s ae dd newId,
      createTaskExpectedErrors ve db pid s ae ≠ [] →
        createTask ve db pid title d s ae dd newId =
          (⟨none, false, createTaskExpectedErrors ve db pid s ae⟩, db)) ∧
    (∀ ve (db : DB) tid content ae newId,
      createTaskCommentExpectedErrors ve db tid content ae ≠ [] →
        createTaskComment ve db tid content ae newId =
          (⟨none, false, createTaskCommentExpectedErrors ve db tid content ae⟩, db)) ∧
    (∀ (db : DB) pid n d s dd,
      updateProjectExpectedErrors db pid s ≠ [] →
        updateProject db pid n d s dd =
          (⟨none, false, updateProjectExpectedErrors db pid s⟩, db)) ∧
    (∀ ve (db : DB) tid ti d s ae dd,
      updateTaskExpectedErrors ve db tid s ae ≠ [] →
        updateTask ve db tid ti d s ae dd =
          (⟨none, false, updateTaskExpectedErrors ve db tid s ae⟩, db)) ∧
    (∀ (db : DB) pid, db.projects.find? (fun p => p.id == pid) = none →
      deleteProject db pid = (⟨none, false, ["Project not found"]⟩, db)) ∧
    (∀ (db : DB) tid, db.tasks.find? (fun t => t.id == tid) = none →
      deleteTask db tid = (⟨none, false, ["Task not found"]⟩, db)) ∧
    (∀ (db : DB) cid, db.comments.find? (fun c => c.id == cid) = none →
      deleteTaskComment db cid = (⟨none, false, ["Comment not found"]⟩, db)) := by
  refine ⟨?_, ?_, ?_, ?_, ?_, ?_, ?_, ?_, ?_⟩
  · intro ve sf db name email newId h
    simp [createOrganization, h]
  · intro db oid name d s dd newId h
    cases hf : db.orgs.find? (fun o => o.id == oid) with
    | none => simp [createProject, createProjectExpectedErrors, hf]
    | some org =>
      rw [createProjectExpectedErrors, hf] at h
      simp [createProject, createProjectExpectedErrors, hf, h]
  · intro ve db pid title d s ae dd newId h
    cases hf : db.projects.find? (fun p => p.id == pid) with
    | none => simp [createTask, createTaskExpectedErrors, hf]
    | some project =>
      rw [createTaskExpectedErrors, hf] at h
      simp [createTask, createTaskExpectedErrors, hf, h]
  · intro ve db tid content ae newId h
    cases hf : db.tasks.find? (fun t => t.id == tid) with
    | none => simp [createTaskComment, createTaskCommentExpectedErrors, hf]
    | some task =>
      rw [createTaskCommentExpectedErrors, hf] at h
      simp [createTaskComment, createTaskCommentExpectedErrors, hf, h]
  · intro db pid n d s dd h
    cases hf : db.projects.find? (fun p => p.id == pid) with
    | none => simp [updateProject, updateProjectExpectedErrors, hf]
    | some project =>
      rw [updateProjectExpectedErrors, hf] at h
      simp [updateProject, updateProjectExpectedErrors, hf, h]
  · intro ve db tid ti d s ae dd h
    cases hf : db.tasks.find? (fun t => t.id == tid) with
    | none => simp [updateTask, updateTaskExpectedErrors, hf]
    | some task =>
      rw [updateTaskExpectedErrors, hf] at h
      simp [updateTask, updateTaskExpectedErrors, hf, h]
  · intro db pid h
    simp [deleteProject, h]
  · intro db tid h
    simp [deleteTask, h]
  · intro db cid h
    simp [deleteTaskComment, h]

/-- C3 witness: with a slugifier sending every name to "acme-corp" (already
taken in the concrete database), creating an organization fails with the
duplicate-slug error and leaves the database unchanged. -/
theorem c3_witness :
    createOrganizationErrors (fun _ => true) (fun _ => "acme-corp") acmeDB
      "Acme Again" "ceo@acme.com" ≠ [] ∧
    createOrganization (fun _ => true) (fun _ => "acme-corp") acmeDB
      "Acme Again" "ceo@acme.com" 2 =
      (⟨none, false, ["Organization with this slug already exists"]⟩, acmeDB) := by
  refine ⟨by decide, ?_⟩
  have h := c3_validation_precedes_persistence.1 (fun _ => true) (fun _ => "acme-corp")
    acmeDB "Acme Again" "ceo@acme.com" 2 (by decide)
  rw [h]
  decide

/-- C4: for an existing task (resp. project), an update changes only the
supplied fields: every omitted (None) field of the returned — and stored —
row keeps its prior value. -/
theorem c4_update_only_supplied_fields (ve : String → Bool) (db : DB)
    (task_id : Nat) (t : Task) (title description status assignee_email : Option String)
    (due_date : Option Int)
    (ht : db.tasks.find? (fun u => u.id == task_id) = some t)
    (project_id : Nat) (p : Project) (pname pdescription pstatus : Option String)
    (pdue : Option Int)
    (hp : db.projects.find? (fun q => q.id == project_id) = some p) :
    (∀ t2,
      (updateTask ve db task_id title description status assignee_email due_date).1.entity =
        some t2 →
      (title = none → t2.title = t.title) ∧
      (description = none → t2.description = t.description) ∧
      (status = none → t2.status = t.status) ∧
      (assignee_email = none → t2.assignee_email = t.assignee_email) ∧
      (due_date = none → t2.due_date = t.due_date) ∧
      (updateTask ve db task_id title description status assignee_email due_date).2.tasks.find?
        (fun u => u.id == task_id) = some t2) ∧
    (∀ p2,
      (updateProject db project_id pname pdescription pstatus pdue).1.entity = some p2 →
      (pname = none → p2.name = p.name) ∧
      (pdescription = none → p2.description = p.description) ∧
      (pstatus = none → p2.status = p.status) ∧
      (pdue = none → p2.due_date = p.due_date) ∧
      (updateProject db project_id pname pdescription pstatus pdue).2.projects.find?
        (fun q => q.id == project_id) = some p2) := by
  have htid : (t.id == task_id) = true := by simpa using List.find?_some ht
  have hpid : (p.id == project_id) = true := by simpa using List.find?_some hp
  refine ⟨?_, ?_⟩
  · intro t2 h2
    simp only [updateTask, ht] at h2 ⊢
    by_cases he :
        (statusChoiceErrors TASK_STATUS_CHOICES status ++
          assigneeEmailErrors ve assignee_email) = []
    · rw [if_pos he] at h2 ⊢
      simp only [Option.some.injEq] at h2
      subst h2
      refine ⟨?_, ?_, ?_, ?_, ?_, ?_⟩
      · intro hh; subst hh; rfl
      · intro hh; subst hh; rfl
      · intro hh; subst hh; rfl
      · intro hh; subst hh; rfl
      · intro hh; subst hh; rfl
      · have hrep := find?_map_replace (fun u => u.id == task_id)
          (fun u => if u.id == task_id then
            applyTaskUpdate t title description status assignee_email due_date else u)
          db.tasks t ht (fun a ha => by simp [ha]) (by simp [htid, applyTaskUpdate, htid])
        simpa [htid] using hrep
    · rw [if_neg he] at h2
      simp at h2
  · intro p2 h2
    simp only [updateProject, hp] at h2 ⊢
    by_cases he : statusChoiceErrors STATUS_CHOICES pstatus = []
    · rw [if_pos he] at h2 ⊢
      simp only [Option.some.injEq] at h2
      subst h2
      refine ⟨?_, ?_, ?_, ?_, ?_⟩
      · intro hh; subst hh; rfl
      · intro hh; subst hh; rfl
      · intro hh; subst hh; rfl
      · intro hh; subst hh; rfl
      · have hrep := find?_map_replace (fun q => q.id == project_id)
          (fun q => if q.id == project_id then
            applyProjectUpdate p pname pdescription pstatus pdue else q)
          db.projects p hp (fun a ha => by simp [ha]) (by simp [hpid, applyProjectUpdate])
        simpa [hpid] using hrep
    · rw [if_neg he] at h2
      simp at h2

/-- C4 witness: on the concrete database, updating task 1 with only status
supplied leaves title, description, assignee_email and due_date unchanged,
and likewise for project 1 updated with only a status. -/
theorem c4_witness :
    acmeDB.tasks.find? (fun u => u.id == 1) =
      some ⟨1, 1, "Design homepage", "", "TODO", "", none⟩ ∧
    acmeDB.projects.find? (fun q => q.id == 1) =
      some ⟨1, 1, "Website", "", "ACTIVE", none⟩ ∧
    (updateTask (fun _ => true) acmeDB 1 none none (some "DONE") none none).1.entity =
      some ⟨1, 1, "Design homepage", "", "DONE", "", none⟩ ∧
    (⟨1, 1, "Design homepage", "", "DONE", "", none⟩ : Task).title = "Design homepage" ∧
    (⟨1, 1, "Design homepage", "", "DONE", "", none⟩ : Task).assignee_email = "" ∧
    (updateProject acmeDB 1 none none (some "ON_HOLD") none).1.entity =
      some ⟨1, 1, "Website", "", "ON_HOLD", none⟩ ∧
    (⟨1, 1, "Website", "", "ON_HOLD", none⟩ : Project).name = "Website" := by
  have h1 : acmeDB.tasks.find? (fun u => u.id == 1) =
      some ⟨1, 1, "Design homepage", "", "TODO", "", none⟩ := by decide
  have h2 : acmeDB.projects.find? (fun q => q.id == 1) =
      some ⟨1, 1, "Website", "", "ACTIVE", none⟩ := by decide
  have h3 : (updateTask (fun _ => true) acmeDB 1 none none (some "DONE") none none).1.entity =
      some ⟨1, 1, "Design homepage", "", "DONE", "", none⟩ := by decide
  have h4 : (updateProject acmeDB 1 none none (some "ON_HOLD") none).1.entity =
      some ⟨1, 1, "Website", "", "ON_HOLD", none⟩ := by decide
  have hc := c4_update_only_supplied_fields (fun _ => true) acmeDB 1
    ⟨1, 1, "Design homepage", "", "TODO", "", none⟩ none none (some "DONE") none none h1
    1 ⟨1, 1, "Website", "", "ACTIVE", none⟩ none none (some "ON_HOLD") none h2
  have hcT := hc.1 ⟨1, 1, "Design homepage", "", "DONE", "", none⟩ h3
  have hcP := hc.2 ⟨1, 1, "Website", "", "ON_HOLD", none⟩ h4
  exact ⟨h1, h2, h3, hcT.1 rfl, hcT.2.2.2.1 rfl, h4, hcP.1 rfl⟩

/-- C7: inputs failing several validations report all the failures together
(email and duplicate slug for create_organization; status and email for
create_task and for update_task; email and content for create_task_comment),
while a failed required-parent lookup (organization for create_project,
project for create_task, task for create_task_comment and update_task)
returns immediately with only that error. -/
theorem c7_errors_accumulate (ve : String → Bool) (sf : String → String) (db : DB)
    (pid pidMissing oidMissing tid tidMissing newId0 newId1 newId2 : Nat)
    (orgName orgEmail title content author_email s e : String)
    (d : Option String) (dd : Option Int)
    (project : Project) (task : Task)
    (hp : db.projects.find? (fun q => q.id == pid) = some project)
    (ht : db.tasks.find? (fun u => u.id == tid) = some task)
    (hom : db.orgs.find? (fun o => o.id == oidMissing) = none)
    (hpm : db.projects.find? (fun q => q.id == pidMissing) = none)
    (htm : db.tasks.find? (fun u => u.id == tidMissing) = none)
    (hoe : ve orgEmail = false)
    (hsl : db.orgs.any (fun o => o.slug == sf orgName.toLower) = true)
    (hs1 : (s == "") = false)
    (hs2 : (TASK_STATUS_CHOICES.map Prod.fst).contains s = false)
    (he1 : (e == "") = false) (he2 : ve e = false)
    (hae : ve author_email = false) (hc : (pyStrip content == "") = true) :
    (createOrganization ve sf db orgName orgEmail newId0).1.errors =
      ["Invalid email format", "Organization with this slug already exists"] ∧
    (createTask ve db pid title d (some s) (some e) dd newId1).1.errors =
      ["Invalid status choice", "Invalid assignee email format"] ∧
    (updateTask ve db tid none none (some s) (some e) none).1.errors =
      ["Invalid status choice", "Invalid assignee email format"] ∧
    (createTaskComment ve db tid content author_email newId2).1.errors =
      ["Invalid author email format", "Comment content cannot be empty"] ∧
    createProject db oidMissing title d (some s) dd newId1 =
      (⟨none, false, ["Organization not found"]⟩, db) ∧
    createTask ve db pidMissing title d (some s) (some e) dd newId1 =
      (⟨none, false, ["Project not found"]⟩, db) ∧
    createTaskComment ve db tidMissing content author_email newId2 =
      (⟨none, false, ["Task not found"]⟩, db) ∧
    updateTask ve db tidMissing none none (some s) (some e) none =
      (⟨none, false, ["Task not found"]⟩, db) := by
  have hserr : statusChoiceErrors TASK_STATUS_CHOICES (some s) = ["Invalid status choice"] := by
    simp only [statusChoiceErrors]
    rw [hs1, hs2]
    simp
  have haerr : assigneeEmailErrors ve (some e) = ["Invalid assignee email format"] := by
    simp only [assigneeEmailErrors]
    rw [he1, he2]
    simp
  have hoerr : createOrganizationErrors ve sf db orgName orgEmail =
      ["Invalid email format", "Organization with this slug already exists"] := by
    simp only [createOrganizationErrors]
    rw [hoe, hsl]
    simp
  refine ⟨?_, ?_, ?_, ?_, ?_, ?_, ?_, ?_⟩
  · simp [createOrganization, hoerr]
  · simp [createTask, hp, createTaskErrors, hserr, haerr]
  · simp [updateTask, ht, hserr, haerr]
  · simp [createTaskComment, ht, createTaskCommentErrors, hae, hc]
  · simp [createProject, hom]
  · simp [createTask, hpm]
  · simp [createTaskComment, htm]
  · simp [updateTask, htm]

/-- C7 witness: with an always-failing validator and a slugifier hitting the
taken slug "acme-corp": create_organization reports the email and slug
errors together; a bogus status plus bad email report both errors for
create_task on project 1 and update_task on task 1; a bad author email plus
blank content report both errors for create_task_comment on task 1; and the
missing organization/project/task id 99 short-circuits create_project,
create_task, create_task_comment and update_task with only the not-found
error. -/
theorem c7_witness :
    acmeDB.projects.find? (fun q => q.id == 1) = some ⟨1, 1, "Website", "", "ACTIVE", none⟩ ∧
    acmeDB.tasks.find? (fun u => u.id == 1) =
      some ⟨1, 1, "Design homepage", "", "TODO", "", none⟩ ∧
    acmeDB.orgs.find? (fun o => o.id == 99) = none ∧
    acmeDB.projects.find? (fun q => q.id == 99) = none ∧
    acmeDB.tasks.find? (fun u => u.id == 99) = none ∧
    acmeDB.orgs.any (fun o => o.slug == "acme-corp") = true ∧
    ("BOGUS" == "") = false ∧
    (TASK_STATUS_CHOICES.map Prod.fst).contains "BOGUS" = false ∧
    ("not-an-email" == "") = false ∧
    (pyStrip "   " == "") = true ∧
    ((createOrganization (fun _ => false) (fun _ => "acme-corp") acmeDB
        "Acme Again" "bad-email" 31).1.errors =
      ["Invalid email format", "Organization with this slug already exists"] ∧
     (createTask (fun _ => false) acmeDB 1 "New task" none (some "BOGUS")
        (some "not-an-email") none 11).1.errors =
      ["Invalid status choice", "Invalid assignee email format"] ∧
     (updateTask (fun _ => false) acmeDB 1 none none (some "BOGUS")
        (some "not-an-email") none).1.errors =
      ["Invalid status choice", "Invalid assignee email format"] ∧
     (createTaskComment (fun _ => false) acmeDB 1 "   " "boss" 21).1.errors =
      ["Invalid author email format", "Comment content cannot be empty"] ∧
     createProject acmeDB 99 "New task" none (some "BOGUS") none 11 =
      (⟨none, false, ["Organization not found"]⟩, acmeDB) ∧
     createTask (fun _ => false) acmeDB 99 "New task" none (some "BOGUS")
        (some "not-an-email") none 11 =
      (⟨none, false, ["Project not found"]⟩, acmeDB) ∧
     createTaskComment (fun _ => false) acmeDB 99 "   " "boss" 21 =
      (⟨none, false, ["Task not found"]⟩, acmeDB) ∧
     updateTask (fun _ => false) acmeDB 99 none none (some "BOGUS")
        (some "not-an-email") none =
      (⟨none, false, ["Task not found"]⟩, acmeDB)) :=
  ⟨by decide, by decide, by decide, by decide, by decide, by decide, by decide, by decide,
    by decide, by decide,
    c7_errors_accumulate (fun _ => false) (fun _ => "acme-corp") acmeDB
      1 99 99 1 99 31 11 21 "Acme Again" "bad-email" "New task" "   " "boss"
      "BOGUS" "not-an-email" none none ⟨1, 1, "Website", "", "ACTIVE", none⟩
      ⟨1, 1, "Design homepage", "", "TODO", "", none⟩
      (by decide) (by decide) (by decide) (by decide) (by decide) (by decide)
      (by decide) (by decide) (by decide) (by decide) (by decide) (by decide)
      (by decide)⟩

/-- C8: updating a task with assignee_email supplied as "" skips the email
validation entirely (for any validator), succeeds, and stores the empty
string; a supplied non-empty address the validator rejects makes the
mutation fail with the email error and no write. -/
theorem c8_empty_email_clears (ve : String → Bool) (db : DB) (task_id : Nat) (t : Task)
    (bad : String)
    (ht : db.tasks.find? (fun u => u.id == task_id) = some t)
    (hb1 : (bad == "") = false) (hb2 : ve bad = false) :
    (updateTask ve db task_id none none none (some "") none).1.success = true ∧
    (updateTask ve db task_id none none none (some "") none).1.entity =
      some { t with assignee_email := "" } ∧
    (updateTask ve db task_id none none none (some "") none).2.tasks.find?
      (fun u => u.id == task_id) = some { t with assignee_email := "" } ∧
    (updateTask ve db task_id none none none (some bad) none).1.success = false ∧
    (updateTask ve db task_id none none none (some bad) none).1.errors =
      ["Invalid assignee email format"] ∧
    (updateTask ve db task_id none none none (some bad) none).2 = db := by
  have htid : (t.id == task_id) = true := by simpa using List.find?_some ht
  refine ⟨?_, ?_, ?_, ?_, ?_, ?_⟩
  · simp [updateTask, ht, statusChoiceErrors, assigneeEmailErrors]
  · simp [updateTask, ht, statusChoiceErrors, assigneeEmailErrors, applyTaskUpdate]
  · have hrep := find?_map_replace (fun u => u.id == task_id)
      (fun u => if u.id == task_id then applyTaskUpdate t none none none (some "") none else u)
      db.tasks t ht (fun a ha => by simp [ha]) (by simp [htid, applyTaskUpdate])
    simp only [updateTask, ht, statusChoiceErrors, assigneeEmailErrors]
    simpa [htid, applyTaskUpdate] using hrep
  · simp [updateTask, ht, statusChoiceErrors, assigneeEmailErrors, hb1, hb2]
  · simp [updateTask, ht, statusChoiceErrors, assigneeEmailErrors, hb1, hb2]
  · simp [updateTask, ht, statusChoiceErrors, assigneeEmailErrors, hb1, hb2]

/-- C8 witness: an always-rejecting validator cannot stop assignee_email=""
(the field is cleared and the row is stored), while the non-empty rejected
address "x" fails the mutation. -/
theorem c8_witness :
    acmeDB.tasks.find? (fun u => u.id == 2) =
      some ⟨2, 1, "Build homepage", "", "DONE", "", none⟩ ∧
    ("x" == "") = false ∧
    ((updateTask (fun _ => false) acmeDB 2 none none none (some "") none).1.success = true ∧
     (updateTask (fun _ => false) acmeDB 2 none none none (some "") none).1.entity =
       some ⟨2, 1, "Build homepage", "", "DONE", "", none⟩ ∧
     (updateTask (fun _ => false) acmeDB 2 none none none (some "") none).2.tasks.find?
       (fun u => u.id == 2) = some ⟨2, 1, "Build homepage", "", "DONE", "", none⟩ ∧
     (updateTask (fun _ => false) acmeDB 2 none none none (some "x") none).1.success = false ∧
     (updateTask (fun _ => false) acmeDB 2 none none none (some "x") none).1.errors =
       ["Invalid assignee email format"] ∧
     (updateTask (fun _ => false) acmeDB 2 none none none (some "x") none).2 = acmeDB) :=
  ⟨by decide, by decide,
    c8_empty_email_clears (fun _ => false) acmeDB 2
      ⟨2, 1, "Build homepage", "", "DONE", "", none⟩ "x" (by decide) (by decide) (by decide)⟩

/-- C9: creating a comment on an existing task fails with the content-empty
error and writes nothing when the content trims to empty; on success the
stored comment holds exactly the trimmed content. -/
theorem c9_comment_trimmed (ve : String → Bool) (db : DB) (task_id newId : Nat)
    (content author_email : String) (task : Task)
    (ht : db.tasks.find? (fun u => u.id == task_id) = some task) :
    (pyStrip content = "" →
      (createTaskComment ve db task_id content author_email newId).1.success = false ∧
      "Comment content cannot be empty" ∈
        (createTaskComment ve db task_id content author_email newId).1.errors ∧
      (createTaskComment ve db task_id content author_email newId).2 = db) ∧
    ((createTaskComment ve db task_id content author_email newId).1.success = true →
      (createTaskComment ve db task_id content author_email newId).2.comments =
        db.comments ++ [⟨newId, task.id, pyStrip content, author_email⟩]) := by
  refine ⟨?_, ?_⟩
  · intro hcempty
    simp [createTaskComment, ht, createTaskCommentErrors, hcempty]
  · intro hsucc
    by_cases herr : createTaskCommentErrors ve content author_email = []
    · simp [createTaskComment, ht, herr]
    · exfalso
      simp [createTaskComment, ht, herr] at hsucc

/-- C9 witness: whitespace-only content fails with the content-empty error
and leaves the store unchanged; content " hello " succeeds and is stored
trimmed to "hello". -/
theorem c9_witness :
    acmeDB.tasks.find? (fun u => u.id == 3) = some ⟨3, 1, "Deploy site", "", "DONE", "", none⟩ ∧
    pyStrip "   " = "" ∧
    ((createTaskComment (fun _ => true) acmeDB 3 "   " "boss@acme.com" 21).1.success = false ∧
     "Comment content cannot be empty" ∈
       (createTaskComment (fun _ => true) acmeDB 3 "   " "boss@acme.com" 21).1.errors ∧
     (createTaskComment (fun _ => true) acmeDB 3 "   " "boss@acme.com" 21).2 = acmeDB) ∧
    (createTaskComment (fun _ => true) acmeDB 3 " hello " "boss@acme.com" 21).1.success = true ∧
    (createTaskComment (fun _ => true) acmeDB 3 " hello " "boss@acme.com" 21).2.comments =
      acmeDB.comments ++ [⟨21, 3, pyStrip " hello ", "boss@acme.com"⟩] ∧
    pyStrip " hello " = "hello" := by
  have h3 : acmeDB.tasks.find? (fun u => u.id == 3) =
      some ⟨3, 1, "Deploy site", "", "DONE", "", none⟩ := by decide
  have hblank := (c9_comment_trimmed (fun _ => true) acmeDB 3 21 "   " "boss@acme.com"
    ⟨3, 1, "Deploy site", "", "DONE", "", none⟩ h3).1 (by decide)
  have hok := (c9_comment_trimmed (fun _ => true) acmeDB 3 21 " hello " "boss@acme.com"
    ⟨3, 1, "Deploy site", "", "DONE", "", none⟩ h3).2 (by decide)
  exact ⟨h3, by decide, hblank, by decide, hok, by decide⟩

/-- C10: supplying status as the empty string skips the status-validity check
(which tests truthiness) but not the assignment (which tests non-None), so
update_task and update_project succeed and store "" — a value outside the
closed status enumerations. -/
theorem c10_empty_status_stored (ve : String → Bool) (db : DB)
    (task_id project_id : Nat) (t : Task) (p : Project)
    (ht : db.tasks.find? (fun u => u.id == task_id) = some t)
    (hp : db.projects.find? (fun q => q.id == project_id) = some p) :
    ((updateTask ve db task_id none none (some "") none none).1.success = true ∧
     (updateTask ve db task_id none none (some "") none none).1.entity =
       some { t with status := "" } ∧
     (updateTask ve db task_id none none (some "") none none).2.tasks.find?
       (fun u => u.id == task_id) = some { t with status := "" } ∧
     "" ∉ TASK_STATUS_CHOICES.map Prod.fst) ∧
    ((updateProject db project_id none none (some "") none).1.success = true ∧
     (updateProject db project_id none none (some "") none).1.entity =
       some { p with status := "" } ∧
     (updateProject db project_id none none (some "") none).2.projects.find?
       (fun q => q.id == project_id) = some { p with status := "" } ∧
     "" ∉ STATUS_CHOICES.map Prod.fst) := by
  have htid : (t.id == task_id) = true := by simpa using List.find?_some ht
  have hpid : (p.id == project_id) = true := by simpa using List.find?_some hp
  refine ⟨⟨?_, ?_, ?_, ?_⟩, ⟨?_, ?_, ?_, ?_⟩⟩
  · simp [updateTask, ht, statusChoiceErrors, assigneeEmailErrors]
  · simp [updateTask, ht, statusChoiceErrors, assigneeEmailErrors, applyTaskUpdate]
  · have hrep := find?_map_replace (fun u => u.id == task_id)
      (fun u => if u.id == task_id then applyTaskUpdate t none none (some "") none none else u)
      db.tasks t ht (fun a ha => by simp [ha]) (by simp [htid, applyTaskUpdate])
    simp only [updateTask, ht, statusChoiceErrors, assigneeEmailErrors]
    simpa [htid, applyTaskUpdate] using hrep
  · decide
  · simp [updateProject, hp, statusChoiceErrors]
  · simp [updateProject, hp, statusChoiceErrors, applyProjectUpdate]
  · have hrep := find?_map_replace (fun q => q.id == project_id)
      (fun q => if q.id == project_id then applyProjectUpdate p none none (some "") none else q)
      db.projects p hp (fun a ha => by simp [ha]) (by simp [hpid, applyProjectUpdate])
    simp only [updateProject, hp, statusChoiceErrors]
    simpa [hpid, applyProjectUpdate] using hrep
  · decide

/-- C10 witness: on the concrete database, updating task 4 and project 2 with
status "" succeeds and stores the out-of-enumeration empty status. -/
theorem c10_witness :
    acmeDB.tasks.find? (fun u => u.id == 4) =
      some ⟨4, 2, "Login screen", "", "DONE", "", none⟩ ∧
    acmeDB.projects.find? (fun q => q.id == 2) = some ⟨2, 1, "App", "", "ACTIVE", none⟩ ∧
    (((updateTask (fun _ => true) acmeDB 4 none none (some "") none none).1.success = true ∧
      (updateTask (fun _ => true) acmeDB 4 none none (some "") none none).1.entity =
        some ⟨4, 2, "Login screen", "", "", "", none⟩ ∧
      (updateTask (fun _ => true) acmeDB 4 none none (some "") none none).2.tasks.find?
        (fun u => u.id == 4) = some ⟨4, 2, "Login screen", "", "", "", none⟩ ∧
      "" ∉ TASK_STATUS_CHOICES.map Prod.fst) ∧
     ((updateProject acmeDB 2 none none (some "") none).1.success = true ∧
      (updateProject acmeDB 2 none none (some "") none).1.entity =
        some ⟨2, 1, "App", "", "", none⟩ ∧
      (updateProject acmeDB 2 none none (some "") none).2.projects.find?
        (fun q => q.id == 2) = some ⟨2, 1, "App", "", "", none⟩ ∧
      "" ∉ STATUS_CHOICES.map Prod.fst)) :=
  ⟨by decide, by decide,
    c10_empty_status_stored (fun _ => true) acmeDB 4 2
      ⟨4, 2, "Login screen", "", "DONE", "", none⟩ ⟨2, 1, "App", "", "ACTIVE", none⟩
      (by decide) (by decide)⟩

end MiniPMS
